import Mathlib

/-!
Verification of the Chime_test browser client.

The repository has two React components built on the amazon-chime-sdk-js
library: ChimeDemo (src/src/ChimeDemo.tsx and the first file of
src/unnamed/part_001) and ChimeWithTranscribe (second file of
src/unnamed/part_001). This development shallowly embeds the state and the
event handlers of those components: React useState/useRef cells become
fields of explicit state records, and each callback (ws.onmessage,
ws.onopen, recorder.ondataavailable, stopTranscription, the audio-video
observers, setupChime) becomes a pure state-transition function translated
line by line from the source. Browser objects that carry state of their own
(WebSocket readyState, MediaRecorder state, MediaStream liveness) are
modelled by lists of per-object states indexed by creation order, since the
component can create several of them over its lifetime.
-/

namespace Chime

/-- readyState of a browser WebSocket handle: CONNECTING, OPEN, CLOSING,
CLOSED. The constructor `opened` models the OPEN state. -/
inductive SockState where
  | connecting
  | opened
  | closing
  | closed
deriving DecidableEq

/-- state of a browser MediaRecorder: inactive, recording or paused. -/
inductive RecState where
  | inactive
  | recording
  | paused
deriving DecidableEq

/-- Transcript-aggregator state of ChimeWithTranscribe: the `transcripts`
useState cell (history of finalized utterances) and the `latestTranscript`
useState cell (the current projection), src/unnamed/part_001 lines 154-155. -/
structure AggState where
  transcripts : List String
  latestTranscript : String
deriving DecidableEq

/-- An inbound WebSocket message as seen by ws.onmessage: either
JSON.parse of event.data throws (`malformed`), or it yields an object whose
relevant fields are type, isPartial and transcript. The Boolean `pFlag`
argument of `parsed` models the isPartial field. -/
inductive WsEvent where
  | malformed
  | parsed (type : String) (pFlag : Bool) (transcript : String)
deriving DecidableEq

/-- ws.onmessage handler of startTranscription, src/unnamed/part_001
lines 273-287. A parse failure is caught and logged, leaving the state
unchanged; a parsed object is acted on only when its type field equals
"transcript": a final event (isPartial false) first appends the transcript
to the history, and then the latest-transcript cell is set to the
transcript whether the event was partial or final. -/
def onMessage (ev : WsEvent) (a : AggState) : AggState :=
  match ev with
  | .malformed => a
  | .parsed type pFlag text =>
      if type = "transcript" then
        let a1 := if pFlag then a else { a with transcripts := a.transcripts ++ [text] }
        { a1 with latestTranscript := text }
      else a

/-- A message is malformed for the aggregator when JSON.parse throws or the
parsed object is not of type "transcript". -/
def isMalformedMsg : WsEvent → Bool
  | .malformed => true
  | .parsed type _ _ => !(type == "transcript")

/-- A sequence of final (isPartial false) transcript events carrying the
given texts, in order. -/
def finalEvents (texts : List String) : List WsEvent :=
  texts.map (fun t => WsEvent.parsed "transcript" false t)

/-- Delivery of a list of inbound messages to the aggregator, in arrival
order. -/
def deliverAll (evs : List WsEvent) (a : AggState) : AggState :=
  evs.foldl (fun st e => onMessage e st) a

/-- Full component state of ChimeWithTranscribe (src/unnamed/part_001,
lines 149-380). useState cells become fields; the useRef cells webSocket,
mediaRecorder and audioChunks become `webSocketRef`, `mediaRecorderRef` and
`audioChunks`. Since the component can create several WebSocket and
MediaRecorder objects over its lifetime, those objects live in the lists
`sockets` and `recorders` (in creation order) and the refs hold indices
into them. `streams` records every MediaStream handed out by
navigator.mediaDevices.getUserMedia, true while its tracks are live (the
device is acquired); no line of the component ever stops a track, so no
transition ever sets an entry to false. -/
structure MState where
  isConnected : Bool
  error : Option String
  isTranscribing : Bool
  microphoneDeviceId : Option String
  transcripts : List String
  latestTranscript : String
  sockets : List SockState
  webSocketRef : Option Nat
  recorders : List RecState
  mediaRecorderRef : Option Nat
  streams : List Bool
  audioChunks : List Nat
deriving DecidableEq

/-- Component state right after setup succeeded and audioVideoDidStart
fired, with the first enumerated microphone selected: connected, no error,
not transcribing, and no socket, recorder or stream created yet. -/
def connectedState : MState :=
  { isConnected := true
    error := none
    isTranscribing := false
    microphoneDeviceId := some "mic-1"
    transcripts := []
    latestTranscript := ""
    sockets := []
    webSocketRef := none
    recorders := []
    mediaRecorderRef := none
    streams := []
    audioChunks := [] }

/-- startTranscription, src/unnamed/part_001 lines 258-305. If no
microphone device id is known or the conference is not connected, it sets
an error and returns. Otherwise it constructs a new WebSocket (readyState
CONNECTING), installs the handlers, and stores the handle in
webSocket.current — overwriting whatever handle was there, without closing
it and without checking isTranscribing. The onopen/onmessage/onerror/
onclose handlers run later as separate events (see `step`). -/
def startTranscription (s : MState) : MState :=
  if s.microphoneDeviceId.isNone || !s.isConnected then
    { s with error := some "Microphone or connection not available" }
  else
    { s with sockets := s.sockets ++ [SockState.connecting]
             webSocketRef := some s.sockets.length }

/-- startAudioCapture, src/unnamed/part_001 lines 324-371, success path.
If no microphone id is known it returns. Otherwise getUserMedia acquires a
live MediaStream for that device, audioChunks.current is reset, a new
MediaRecorder on that stream is created and started (state recording), and
mediaRecorder.current is set to it. The `_ws` argument is the socket the
recorder's ondataavailable closure will send on; chunk delivery itself is
modelled by `ondataavailable` below. -/
def startAudioCapture (_ws : Nat) (s : MState) : MState :=
  if s.microphoneDeviceId.isNone then s
  else
    { s with streams := s.streams ++ [true]
             audioChunks := []
             recorders := s.recorders ++ [RecState.recording]
             mediaRecorderRef := some s.recorders.length }

/-- stopTranscription, src/unnamed/part_001 lines 308-322. If
mediaRecorder.current exists and its state is not inactive, it is stopped
(its state becomes inactive). If webSocket.current exists, it is closed
when its readyState is OPEN (close moves it to CLOSING) and the ref is
nulled. Finally isTranscribing is set to false. Nothing here touches the
MediaStream in `streams`: the source never calls stop on the stream's
tracks. -/
def stopTranscription (s : MState) : MState :=
  let s1 :=
    match s.mediaRecorderRef with
    | some r =>
        if s.recorders.getD r RecState.inactive ≠ RecState.inactive then
          { s with recorders := s.recorders.set r RecState.inactive }
        else s
    | none => s
  let s2 :=
    match s1.webSocketRef with
    | some i =>
        let s3 :=
          if s1.sockets.getD i SockState.closed = SockState.opened then
            { s1 with sockets := s1.sockets.set i SockState.closing }
          else s1
        { s3 with webSocketRef := none }
    | none => s1
  { s2 with isTranscribing := false }

/-- Lifting of the ws.onmessage handler to the full component state: the
handler reads and writes only the transcripts and latestTranscript cells. -/
def onMessageState (ev : WsEvent) (s : MState) : MState :=
  let a := onMessage ev { transcripts := s.transcripts
                          latestTranscript := s.latestTranscript }
  { s with transcripts := a.transcripts, latestTranscript := a.latestTranscript }

/-- Events the ChimeWithTranscribe component reacts to: the user clicking
the transcription toggle (src/unnamed/part_001 lines 374-380), the
onopen/onmessage/onerror/onclose callbacks of the socket created at index
`i` (lines 267-298), and the audioVideoDidStart/audioVideoDidStop observer
callbacks of the conference session (lines 215-224). -/
inductive Evt where
  | toggleTranscription
  | wsOpen (i : Nat)
  | wsMessage (i : Nat) (ev : WsEvent)
  | wsError (i : Nat)
  | wsClose (i : Nat)
  | audioVideoDidStart
  | audioVideoDidStop
deriving DecidableEq

/-- One event-loop step of ChimeWithTranscribe. toggleTranscription stops
when isTranscribing and starts otherwise. onopen of socket `i` (which can
only fire while that socket is CONNECTING) moves it to OPEN, sets
isTranscribing and starts audio capture bound to it. onmessage feeds the
aggregator. onerror sets the error and clears isTranscribing. onclose
(firing for a socket not yet CLOSED) moves it to CLOSED and clears
isTranscribing. audioVideoDidStart sets isConnected and clears the error;
audioVideoDidStop clears isConnected and calls stopTranscription. -/
def step (e : Evt) (s : MState) : MState :=
  match e with
  | .toggleTranscription =>
      if s.isTranscribing then stopTranscription s else startTranscription s
  | .wsOpen i =>
      if s.sockets.getD i SockState.closed = SockState.connecting then
        startAudioCapture i
          { s with sockets := s.sockets.set i SockState.opened
                   isTranscribing := true }
      else s
  | .wsMessage _ ev => onMessageState ev s
  | .wsError _ =>
      { s with error := some "Transcription service error", isTranscribing := false }
  | .wsClose i =>
      if s.sockets.getD i SockState.closed ≠ SockState.closed then
        { s with sockets := s.sockets.set i SockState.closed
                 isTranscribing := false }
      else s
  | .audioVideoDidStart => { s with isConnected := true, error := none }
  | .audioVideoDidStop => stopTranscription { s with isConnected := false }

/-- Run of a list of events from a starting component state. -/
def run (evs : List Evt) (s : MState) : MState :=
  evs.foldl (fun st e => step e st) s

/-- Number of WebSocket handles of the component that are currently in the
OPEN state. -/
def openSockets (s : MState) : Nat :=
  (s.sockets.filter (fun st => st == SockState.opened)).length

/-- Component state after the run: start transcription, socket 0 opens
(audio capture acquires the microphone stream), stop transcription. -/
def startOpenStopFinal : MState :=
  run [Evt.toggleTranscription, Evt.wsOpen 0, Evt.toggleTranscription] connectedState

/-- Component state after the run: the transcription toggle is clicked
twice before the first socket's onopen callback fires, then both sockets
open. -/
def doubleStartFinal : MState :=
  run [Evt.toggleTranscription, Evt.toggleTranscription, Evt.wsOpen 0, Evt.wsOpen 1]
    connectedState

/-- A Blob of encoded audio, characterised by its size in bytes. -/
structure Blob where
  size : Nat
deriving DecidableEq

/-- The JSON object sent over the WebSocket for one chunk,
src/unnamed/part_001 lines 352-356. `audioData` holds the blob contents
whose base64 encoding the source sends; base64 is injective, so the payload
is modelled as the list of blobs it encodes. -/
structure OutboundMsg where
  action : String
  audioData : List Blob
  languageCode : String
deriving DecidableEq

/-- recorder.ondataavailable handler, src/unnamed/part_001 lines 338-360.
Given the readyState of the socket captured by the closure and the current
audioChunks buffer, a nonempty data blob is pushed onto the buffer, a Blob
is built from the whole buffer, and the buffer is reset to empty. Only if
the socket is OPEN is the blob base64-encoded and sent; otherwise nothing
is sent, nothing is kept for later, and nothing is raised. Returns the
buffer after the handler and the list of messages sent during it. -/
def ondataavailable (wsState : SockState) (chunks : List Blob) (data : Blob) :
    List Blob × List OutboundMsg :=
  let chunks1 := if data.size > 0 then chunks ++ [data] else chunks
  let blob := chunks1
  let chunksReset : List Blob := []
  if wsState = SockState.opened then
    (chunksReset,
      [{ action := "startTranscription", audioData := blob, languageCode := "en-US" }])
  else
    (chunksReset, [])

/-- Delivery of a list of recorder data blobs, one ondataavailable
invocation per blob in order, threading the audioChunks buffer. Returns the
final buffer and the per-invocation lists of sent messages (one entry per
incoming blob, whatever the transport state). -/
def runCapture (wsState : SockState) :
    List Blob → List Blob → List Blob × List (List OutboundMsg)
  | chunks, [] => (chunks, [])
  | chunks, d :: ds =>
      let r := ondataavailable wsState chunks d
      let rest := runCapture wsState r.1 ds
      (rest.1, r.2 :: rest.2)

namespace ChimeDemo

/-- Response of the provisioning endpoint as the setup code observes it:
the HTTP status, whether response.json() resolves (the body is valid JSON),
and the two descriptor fields of the parsed object — absent fields
destructure to undefined, modelled as none. The descriptors themselves are
opaque payloads. -/
structure ApiResponse where
  status : Nat
  jsonValid : Bool
  meetingResponse : Option String
  attendeeResponse : Option String
deriving DecidableEq

/-- response.ok of the fetch API: status in the inclusive range 200-299. -/
def respOk (r : ApiResponse) : Bool :=
  200 ≤ r.status && r.status ≤ 299

/-- UI state of the ChimeDemo component: the isLoading, error and
isConnected useState cells, plus whether setMeetingSession installed a
session object (the meetingSession cell is non-null). -/
structure UiState where
  isLoading : Bool
  error : Option String
  isConnected : Bool
  sessionInstalled : Bool
deriving DecidableEq

/-- Initial component state: loading, no error, not connected, no session
installed (useState initializers, src/src/ChimeDemo.tsx lines 14-17). -/
def initState : UiState :=
  { isLoading := true, error := none, isConnected := false, sessionInstalled := false }

/-- setupChime provisioning phase, src/src/ChimeDemo.tsx lines 21-48 and
src/unnamed/part_001 lines 166-181. Inside try: setIsLoading(true); fetch;
when response.ok is false an Error with message
"API failed with status N" is thrown and lands in the catch block, which
stores err.message in the error cell; when the body is not valid JSON,
response.json() rejects and the catch block stores that message. Otherwise
the object is destructured into meetingResponse and attendeeResponse
without any presence check, MeetingSessionConfiguration and
DefaultMeetingSession are constructed — the external SDK (v3) declares both
constructor arguments optional and does not throw when either is absent —
and setMeetingSession installs the session. The finally block always sets
isLoading to false. The later steps of setupChime (element binding, device
selection, observer registration, start) touch neither the error cell nor
session installation on this path and are modelled by the later transition
functions. -/
def setupChime (r : ApiResponse) (u : UiState) : UiState :=
  let u0 := { u with isLoading := true }
  let u1 :=
    if !(respOk r) then
      { u0 with error := some ("API failed with status " ++ toString r.status) }
    else if !r.jsonValid then
      { u0 with error := some "Unexpected end of JSON input" }
    else
      { u0 with sessionInstalled := true }
  { u1 with isLoading := false }

/-- A 200 response whose valid-JSON body lacks both the meetingResponse
and the attendeeResponse descriptor. -/
def malformedOkResponse : ApiResponse :=
  { status := 200, jsonValid := true, meetingResponse := none, attendeeResponse := none }

/-- MeetingSessionStatusCode values of the SDK that the audioVideoDidStop
observer can receive; only OK versus non-OK matters to the handler. -/
inductive MeetingSessionStatusCode where
  | OK
  | Left
  | AudioJoinedFromAnotherDevice
  | AudioAuthenticationRejected
  | AudioCallAtCapacity
  | AudioInternalServerError
  | MeetingEnded
deriving DecidableEq

/-- Numeric value of the status code, as interpolated into the error
message by the handler. -/
def statusNum : MeetingSessionStatusCode → Nat
  | .OK => 1
  | .Left => 2
  | .AudioJoinedFromAnotherDevice => 3
  | .AudioAuthenticationRejected => 4
  | .AudioCallAtCapacity => 5
  | .AudioInternalServerError => 6
  | .MeetingEnded => 7

/-- audioVideoDidStart observer of ChimeDemo, src/src/ChimeDemo.tsx
lines 74-78: setIsConnected(true) and setError(null). -/
def audioVideoDidStart (u : UiState) : UiState :=
  { u with isConnected := true, error := none }

/-- audioVideoDidStop observer of ChimeDemo, src/src/ChimeDemo.tsx
lines 79-89: setIsConnected(false); then, when the session status code is
not OK, an error message interpolating the code is stored. -/
def audioVideoDidStop (st : MeetingSessionStatusCode) (u : UiState) : UiState :=
  let u1 := { u with isConnected := false }
  if st ≠ MeetingSessionStatusCode.OK then
    { u1 with error := some ("Connection error: " ++ toString (statusNum st)) }
  else u1

end ChimeDemo

/-- C1: a partial transcript event replaces only the latest-transcript
projection and leaves the history unchanged; a final transcript event
appends its text to the history and also replaces the projection; hence
after an event of either kind the projection equals that event's text. -/
theorem onMessage_transcript_updates (a : AggState) (text : String) :
    (onMessage (WsEvent.parsed "transcript" true text) a).transcripts = a.transcripts
    ∧ (onMessage (WsEvent.parsed "transcript" true text) a).latestTranscript = text
    ∧ (onMessage (WsEvent.parsed "transcript" false text) a).transcripts
        = a.transcripts ++ [text]
    ∧ (onMessage (WsEvent.parsed "transcript" false text) a).latestTranscript = text
    ∧ ∀ pFlag : Bool,
        (onMessage (WsEvent.parsed "transcript" pFlag text) a).latestTranscript = text := by
  refine ⟨by simp [onMessage], by simp [onMessage], by simp [onMessage],
    by simp [onMessage], ?_⟩
  intro pFlag
  cases pFlag <;> simp [onMessage]

/-- Delivering the final events for `texts` appends exactly `texts` to the
history, whatever the starting aggregator state. -/
theorem deliverAll_finalEvents (texts : List String) (a : AggState) :
    (deliverAll (finalEvents texts) a).transcripts = a.transcripts ++ texts := by
  induction texts generalizing a with
  | nil => simp [deliverAll, finalEvents]
  | cons t ts ih =>
      have h := ih { a with transcripts := a.transcripts ++ [t],
                            latestTranscript := t }
      simp [deliverAll, finalEvents, onMessage] at h ⊢
      simpa using h

/-- C2: history is append-only. After any sequence of N final transcript
events, the history equals the old history with the N new texts appended:
its length grew by exactly N, every previously present entry is still
there at its old position, and nothing was deduplicated or reordered. -/
theorem history_append_only (texts : List String) (a : AggState) :
    (deliverAll (finalEvents texts) a).transcripts = a.transcripts ++ texts
    ∧ (deliverAll (finalEvents texts) a).transcripts.length
        = a.transcripts.length + texts.length
    ∧ (deliverAll (finalEvents texts) a).transcripts.take a.transcripts.length
        = a.transcripts := by
  refine ⟨deliverAll_finalEvents texts a, ?_, ?_⟩
  · rw [deliverAll_finalEvents texts a]; simp
  · rw [deliverAll_finalEvents texts a]; simp

/-- C9: stopTranscription modifies only the recorder, the socket handle
and the transcribing flag. For every component state, the transcript
history, the latest-transcript projection, the error cell, the connection
flag, the selected microphone, the acquired streams and the chunk buffer
are all left exactly as they were, and isTranscribing is false
afterwards. -/
theorem stopTranscription_frame (s : MState) :
    (stopTranscription s).transcripts = s.transcripts
    ∧ (stopTranscription s).latestTranscript = s.latestTranscript
    ∧ (stopTranscription s).error = s.error
    ∧ (stopTranscription s).isConnected = s.isConnected
    ∧ (stopTranscription s).microphoneDeviceId = s.microphoneDeviceId
    ∧ (stopTranscription s).streams = s.streams
    ∧ (stopTranscription s).audioChunks = s.audioChunks
    ∧ (stopTranscription s).isTranscribing = false := by
  obtain ⟨c, e, t, m, tr, lt, so, wr, re, mr, st, ac⟩ := s
  cases mr <;> cases wr <;> simp [stopTranscription] <;> split_ifs <;>
    simp <;> split_ifs <;> simp

/-- C3, failing run: start transcription, let the socket open (audio
capture acquires the microphone stream), stop transcription, and stop once
more. No error is ever set, the recorder is stopped, the socket ref is
cleared and the second stop is a no-op (idempotence) — but the MediaStream
acquired by getUserMedia is still live, because stopTranscription never
stops the stream's tracks, so the device acquisition dangles. -/
theorem stopTranscription_stream_not_released :
    startOpenStopFinal.isTranscribing = false
    ∧ startOpenStopFinal.error = none
    ∧ startOpenStopFinal.recorders = [RecState.inactive]
    ∧ startOpenStopFinal.webSocketRef = none
    ∧ stopTranscription startOpenStopFinal = startOpenStopFinal
    ∧ startOpenStopFinal.streams = [true] := by
  decide

/-- C6, failing run: the user clicks the transcription toggle twice before
the first socket's onopen callback has fired (isTranscribing only becomes
true inside onopen, so the second click also takes the start branch), and
then both sockets open. startTranscription overwrites webSocket.current
without rejecting and without closing the previous handle, so afterwards
two WebSocket handles are OPEN at once and two live microphone streams are
acquired. -/
theorem double_start_two_open_sockets :
    doubleStartFinal.sockets = [SockState.opened, SockState.opened]
    ∧ openSockets doubleStartFinal = 2
    ∧ doubleStartFinal.streams = [true, true] := by
  decide

/-- When the socket is not OPEN, one ondataavailable invocation sends
nothing and, as always, leaves the chunk buffer empty. -/
theorem ondataavailable_not_open (wsState : SockState)
    (h : wsState ≠ SockState.opened) (chunks : List Blob) (d : Blob) :
    (ondataavailable wsState chunks d).1 = []
    ∧ (ondataavailable wsState chunks d).2 = [] := by
  unfold ondataavailable
  simp [h]

/-- One handler invocation happens per incoming blob, whatever the
transport state. -/
theorem runCapture_length (wsState : SockState) (chunks ds : List Blob) :
    ((runCapture wsState chunks ds).2).length = ds.length := by
  induction ds generalizing chunks with
  | nil => rfl
  | cons d ds ih => simp [runCapture, ih]

/-- When the socket is not OPEN, no invocation of the run sends anything. -/
theorem runCapture_not_open (wsState : SockState)
    (h : wsState ≠ SockState.opened) (chunks ds : List Blob) :
    ∀ o ∈ (runCapture wsState chunks ds).2, o = [] := by
  induction ds generalizing chunks with
  | nil => intro o ho; simp [runCapture] at ho
  | cons d ds ih =>
      intro o ho
      simp only [runCapture, List.mem_cons] at ho
      rcases ho with h1 | h2
      · rw [h1]; exact (ondataavailable_not_open wsState h chunks d).2
      · exact ih _ o h2

/-- C5: when the transport is not open at a chunk boundary the encoded
chunk is dropped: nothing is sent, the chunk buffer is reset to empty (so
nothing is kept for a retry), no error value is produced anywhere in the
handler, and the run still performs exactly one handler invocation per
subsequent blob — capture cadence is unaffected by transport health. -/
theorem closed_transport_drops_chunks (wsState : SockState)
    (h : wsState ≠ SockState.opened) (chunks : List Blob) (d : Blob)
    (ds : List Blob) :
    (ondataavailable wsState chunks d).2 = []
    ∧ (ondataavailable wsState chunks d).1 = []
    ∧ ((runCapture wsState chunks (d :: ds)).2).length = (d :: ds).length
    ∧ ∀ o ∈ (runCapture wsState chunks (d :: ds)).2, o = [] :=
  ⟨(ondataavailable_not_open wsState h chunks d).2,
    (ondataavailable_not_open wsState h chunks d).1,
    runCapture_length wsState chunks (d :: ds),
    runCapture_not_open wsState h chunks (d :: ds)⟩

/-- Witness for closed_transport_drops_chunks: transport CLOSED, empty
buffer, two incoming blobs of sizes 3 and 2. -/
theorem closed_transport_drops_chunks_witness :
    SockState.closed ≠ SockState.opened
    ∧ ((ondataavailable SockState.closed [] (Blob.mk 3)).2 = []
      ∧ (ondataavailable SockState.closed [] (Blob.mk 3)).1 = []
      ∧ ((runCapture SockState.closed [] (Blob.mk 3 :: [Blob.mk 2])).2).length
          = (Blob.mk 3 :: [Blob.mk 2]).length
      ∧ ∀ o ∈ (runCapture SockState.closed [] (Blob.mk 3 :: [Blob.mk 2])).2, o = []) :=
  ⟨by decide,
    closed_transport_drops_chunks SockState.closed (by decide) [] (Blob.mk 3) [Blob.mk 2]⟩

/-- C7: a malformed inbound transport message — JSON.parse failure, or a
parsed object whose type is not "transcript" — leaves the whole component
state unchanged: history and latest transcript are untouched and every
socket keeps its readyState, so the connection is not terminated and
nothing is thrown past the handler. -/
theorem malformed_message_ignored (s : MState) (i : Nat) (ev : WsEvent)
    (h : isMalformedMsg ev = true) :
    step (Evt.wsMessage i ev) s = s := by
  cases ev with
  | malformed => rfl
  | parsed t pFlag tx =>
      simp only [isMalformedMsg, Bool.not_eq_true', beq_eq_false_iff_ne, ne_eq] at h
      simp [step, onMessageState, onMessage, h]

/-- Witness for malformed_message_ignored: a parse-failure message arriving
in the connected state. -/
theorem malformed_message_ignored_witness :
    isMalformedMsg WsEvent.malformed = true
    ∧ step (Evt.wsMessage 0 WsEvent.malformed) connectedState = connectedState :=
  ⟨rfl, malformed_message_ignored connectedState 0 WsEvent.malformed rfl⟩

/-- C10: whenever audioVideoDidStart fires — in the ChimeDemo component as
well as in the ChimeWithTranscribe machine — the postcondition is
isConnected true and error none, for every prior state: a stale setup or
disconnect error never survives into the connected state. -/
theorem didStart_clears_error (u : ChimeDemo.UiState) (s : MState) :
    (ChimeDemo.audioVideoDidStart u).isConnected = true
    ∧ (ChimeDemo.audioVideoDidStart u).error = none
    ∧ (step Evt.audioVideoDidStart s).isConnected = true
    ∧ (step Evt.audioVideoDidStart s).error = none :=
  ⟨rfl, rfl, rfl, rfl⟩

/-- C8: audioVideoDidStop always clears isConnected; when the status code
is not OK a user-visible error interpolating the code is stored, and when
it is OK the error cell is left exactly as it was — a clean disconnect
surfaces no error. -/
theorem audioVideoDidStop_error_policy (u : ChimeDemo.UiState)
    (st : ChimeDemo.MeetingSessionStatusCode) :
    (ChimeDemo.audioVideoDidStop st u).isConnected = false
    ∧ (ChimeDemo.audioVideoDidStop st u).error
        = (if st = ChimeDemo.MeetingSessionStatusCode.OK then u.error
           else some ("Connection error: " ++ toString (ChimeDemo.statusNum st))) := by
  constructor
  · unfold ChimeDemo.audioVideoDidStop
    split_ifs <;> rfl
  · unfold ChimeDemo.audioVideoDidStop
    split_ifs <;> simp_all

/-- C4 counterexample: a 200 response whose valid-JSON payload is missing
both the meetingResponse and the attendeeResponse descriptor raises no
error — destructuring yields undefined, the external SDK constructors
accept absent arguments — and a conference session is installed anyway,
contradicting the claim that such a payload fails provisioning with no
session installed. -/
theorem setupChime_missing_fields_no_error :
    ChimeDemo.malformedOkResponse.meetingResponse = none
    ∧ ChimeDemo.malformedOkResponse.attendeeResponse = none
    ∧ (ChimeDemo.setupChime ChimeDemo.malformedOkResponse ChimeDemo.initState).error = none
    ∧ (ChimeDemo.setupChime ChimeDemo.malformedOkResponse
        ChimeDemo.initState).sessionInstalled = true := by
  decide

/-- C4 amended: starting from the initial state, setup surfaces an error
and installs no session exactly when the HTTP status is not 2xx or the
body fails JSON parsing; the payload fields are never validated, so any
2xx valid-JSON response — descriptors present or not — installs a session
with no error. Loading always ends. -/
theorem setupChime_error_iff_fetch_failure (r : ChimeDemo.ApiResponse) :
    (ChimeDemo.setupChime r ChimeDemo.initState).error.isSome
        = !(ChimeDemo.respOk r && r.jsonValid)
    ∧ (ChimeDemo.setupChime r ChimeDemo.initState).sessionInstalled
        = (ChimeDemo.respOk r && r.jsonValid)
    ∧ (ChimeDemo.setupChime r ChimeDemo.initState).isLoading = false := by
  unfold ChimeDemo.setupChime
  cases h1 : ChimeDemo.respOk r <;> cases h2 : r.jsonValid <;>
    simp [h1, h2, ChimeDemo.initState]

end Chime
